import Mathlib

/-!
Shallow embedding of the validation-merge pipeline of
`migration-import-unified.py` (function `process_migration` and the
validator functions it calls), together with theorems settling the
frozen claims about it.

Conventions of the embedding:
* a CSV cell is an `Option String`; `none` is pandas `NaN`;
* a pandas DataFrame is a `List` of records; boolean masks become
  `List.filter`, column assignments become `List.map`;
* `pd.to_datetime` is modelled for the timestamp format the pipeline
  mandates (`YYYY-MM-DDTHH:MM:SSZ`), encoding the 14 digits as a `Nat`
  that is order-isomorphic to chronological order; other strings
  coerce to `none` as with `errors='coerce'`;
* the random email generator of sandbox anonymization is modelled as
  an explicit stream parameter `gen : Nat → String` supplying the
  random infix for each row, so that the pipeline itself is a pure
  function of its inputs and of the stream.
-/

namespace Migration

/-- Characters removed from the right end by Python `rstrip(".0")`. -/
def isDotZeroChar (c : Char) : Bool := c == '.' || c == '0'

/-- Python `s.rstrip(".0")`: drops every trailing character that is `.` or `0`. -/
def rstripDot0 (s : String) : String := ⟨(s.data.reverse.dropWhile isDotZeroChar).reverse⟩

/-- Python `s[-4:]`: the last four characters (the whole string when shorter). -/
def lastFour (s : String) : String := ⟨s.data.drop (s.data.length - 4)⟩

/-- Python `s.zfill(5)`: left-pad with zeros to width 5. -/
def zfill5 (s : String) : String := ⟨List.replicate (5 - s.data.length) '0' ++ s.data⟩

/-- Python `re.sub(r'\D', '', s)`: keep only digit characters. -/
def digitsOnly (s : String) : String := ⟨s.data.filter Char.isDigit⟩

/-- Python `s.split('-')[0]`. -/
def beforeDash (s : String) : String := ⟨s.data.takeWhile (fun c => !(c == '-'))⟩

/-- Whitespace characters Python `str.strip()` removes (those occurring in
CSV cells). -/
def isSpaceChar (c : Char) : Bool := c == ' ' || c == '\t' || c == '\n' || c == '\r'

/-- Python `s.strip()` / pandas `str.strip()`. -/
def stripStr (s : String) : String :=
  ⟨((s.data.dropWhile isSpaceChar).reverse.dropWhile isSpaceChar).reverse⟩

/-- Python `s.lower()`. -/
def lowerStr (s : String) : String := ⟨s.data.map Char.toLower⟩

/-- Python `s.endswith(".0")`. -/
def endsDot0 (s : String) : Bool :=
  match s.data.reverse with
  | '0' :: '.' :: _ => true
  | _ => false

/-- Removal of the final two characters (the matched `\.0$` of
`clean_dataframe_for_csv`). -/
def dropLast2 (s : String) : String := ⟨s.data.take (s.data.length - 2)⟩

/-- The regex `^\d{4}-\d{2}-\d{2}T\d{2}:\d{2}:\d{2}Z$` of `validate_date_format`. -/
def matchesDateFormat (s : String) : Bool :=
  match s.data with
  | [y1, y2, y3, y4, s1, o1, o2, s2, d1, d2, t, h1, h2, c1, i1, i2, c2, e1, e2, z] =>
    y1.isDigit && y2.isDigit && y3.isDigit && y4.isDigit && s1 == '-' &&
    o1.isDigit && o2.isDigit && s2 == '-' && d1.isDigit && d2.isDigit &&
    t == 'T' && h1.isDigit && h2.isDigit && c1 == ':' && i1.isDigit && i2.isDigit &&
    c2 == ':' && e1.isDigit && e2.isDigit && z == 'Z'
  | _ => false

/-- The per-cell `check_date_format` of `validate_date_format`: `NaN` and the
strings `nan`, `none`, `nat`, `` (lower-cased) fail, otherwise the regex decides. -/
def checkDateFormat (v : Option String) : Bool :=
  match v with
  | none => false
  | some s =>
    !(lowerStr s == "nan" || lowerStr s == "none" || lowerStr s == "nat" || s == "") &&
    matchesDateFormat s

/-- Numeric value of a digit character. -/
def digitVal (c : Char) : Nat := c.toNat - '0'.toNat

/-- Models `pd.to_datetime(..., errors='coerce')` on a cell for the pipeline's
mandated `YYYY-MM-DDTHH:MM:SSZ` format: the 14 digits are packed into one `Nat`,
which is order-isomorphic to chronological order; anything else coerces to `none`. -/
def parseDateValue (s : String) : Option Nat :=
  if matchesDateFormat s then
    some ((s.data.filter Char.isDigit).foldl (fun acc c => acc * 10 + digitVal c) 0)
  else none

/-- Date parsing of an optional cell (`NaN` parses to `NaT`, i.e. `none`). -/
def parseDate (v : Option String) : Option Nat := v.bind parseDateValue

/-- The character class `[A-CEGHJ-NPR-TV-Z]` of `validate_ca_zip_codes`, applied
case-insensitively (`str.match(..., case=False)`). Spelled out, the ranges are
A-C, E, G, H, J-N, P, R-T and V-Z; note that the final `V-Z` range admits the
letters W and Z. -/
def caLetter (c : Char) : Bool :=
  ['A', 'B', 'C', 'E', 'G', 'H', 'J', 'K', 'L', 'M', 'N', 'P', 'R', 'S', 'T',
   'V', 'W', 'X', 'Y', 'Z'].contains c.toUpper

/-- Modelled from the spec: the letters the specification allows in a Canadian
postal code, namely every letter except D, F, I, O, Q, U, W and Z. -/
def caLetterSpec (c : Char) : Bool :=
  c.isAlpha && !(['D', 'F', 'I', 'O', 'Q', 'U', 'W', 'Z'].contains c.toUpper)

/-- Shape `^L\dL ?\dL\d$` of a Canadian postal code, parameterised by which
characters count as letters. -/
def matchesCaShape (letter : Char → Bool) (s : String) : Bool :=
  match s.data with
  | [a, b, c, d, e, f] =>
    letter a && b.isDigit && letter c && d.isDigit && letter e && f.isDigit
  | [a, b, c, sp, d, e, f] =>
    letter a && b.isDigit && letter c && sp == ' ' && d.isDigit && letter e && f.isDigit
  | _ => false

/-- The Canadian postal-code regex of `validate_ca_zip_codes`. -/
def matchesCaZip (s : String) : Bool := matchesCaShape caLetter s

/-- Modelled from the spec: the Canadian postal-code format as the specification
states it (letters D, F, I, O, Q, U, W, Z excluded). -/
def matchesCaZipSpec (s : String) : Bool := matchesCaShape caLetterSpec s

/-- The US postal-code regex `^\d{5}$` of `validate_us_zip_codes`. -/
def matchesUsZip (s : String) : Bool :=
  s.data.length == 5 && s.data.all Char.isDigit

/-- The autocorrectable shape `^\d{4}$` of `validate_us_zip_codes`. -/
def isFourDigits (s : String) : Bool :=
  s.data.length == 4 && s.data.all Char.isDigit

/-- The unsupported-country denylist of `validate_unsupported_countries`. -/
def unsupportedCountries : List String :=
  ["AF", "AQ", "BY", "MM", "CF", "CU", "CD", "HT", "IR", "LY", "ML", "AN",
   "NI", "KP", "RU", "SO", "SS", "SD", "SY", "VE", "YE", "ZW"]

/-- The countries that require a postal code, from `validate_missing_zip_codes`. -/
def requiredZipCountries : List String :=
  ["AU", "CA", "FR", "DE", "IN", "IT", "NL", "ES", "GB", "US"]

/-- The required subscriber column names of `validate_subscriber_columns`. -/
def requiredColumns : List String :=
  ["customer_email", "customer_full_name", "customer_external_id",
   "business_tax_identifier", "business_name", "business_company_number",
   "business_external_id", "address_country_code", "address_street_line1",
   "address_street_line2", "address_city", "address_region",
   "address_postal_code", "address_external_id", "status", "currency_code",
   "started_at", "paused_at", "collection_mode", "enable_checkout",
   "purchase_order_number", "additional_information",
   "payment_terms_frequency", "payment_terms_interval",
   "current_period_started_at", "current_period_ends_at",
   "trial_period_frequency", "trial_period_interval",
   "subscription_external_id", "card_token", "discount_id",
   "discount_remaining_cycles", "subscription_custom_data_key_1",
   "subscription_custom_data_value_1", "subscription_custom_data_key_2",
   "subscription_custom_data_value_2", "price_id_1", "quantity_1",
   "price_id_2", "quantity_2"]

/-- One row of the subscriber CSV, restricted to the columns the pipeline
inspects (`process_migration` passes the remaining business columns through
unchanged). A cell is `none` when pandas read it as `NaN`. -/
structure SubRow where
  card_token : Option String
  customer_email : Option String
  customer_full_name : Option String
  address_country_code : Option String
  address_postal_code : Option String
  current_period_started_at : Option String
  current_period_ends_at : Option String
  subscription_external_id : Option String
deriving DecidableEq, Repr

/-- A subscriber row after `subscribedata['_temp_row_id'] = range(len(subscribedata))`:
the stable row identity plus the row. -/
structure TaggedRow where
  rowId : Nat
  sub : SubRow
deriving DecidableEq, Repr

/-- The row-identity tagger: zero-based sequential ids, assigned at ingestion. -/
def tagRows (rs : List SubRow) : List TaggedRow :=
  rs.enum.map (fun p => ⟨p.1, p.2⟩)

/-- One row of the Bluesnap mapping CSV (columns used by the pipeline). -/
structure BsMapRow where
  accountId : String
  creditCardNumber : String
  firstName : Option String
  lastName : Option String
  zipCode : Option String
deriving DecidableEq, Repr

/-- One row of the Stripe mapping CSV (columns used by the pipeline). -/
structure StMapRow where
  cardId : Option String
  cardNumber : Option String
  cardName : Option String
  cardAddressZip : Option String
deriving DecidableEq, Repr

/-- A row of the merged working set (`completed` in the source), restricted to
the columns later stages inspect. `joinKey` records the value in the join-key
column at merge time (the synthetic token for Bluesnap, the card id for
Stripe); `card_token` holds the column after the branch's post-join rewriting. -/
structure MergedRow where
  rowId : Option Nat
  joinKey : String
  isDuplicateToken : Bool
  hasMappingMatch : Bool
  card_token : Option String
  card_id : Option String
  card_holder_name : Option String
  customer_email : Option String
  customer_full_name : Option String
  address_country_code : Option String
  address_postal_code : Option String
  subscription_external_id : Option String
  mappingZip : Option String
deriving DecidableEq, Repr

/-! ## Bluesnap (synthesized-token) merge branch -/

/-- The synthetic token built per mapping row:
`BlueSnap Account Id` + last 4 digits of `Credit Card Number`. -/
def bsToken (m : BsMapRow) : String := m.accountId ++ lastFour m.creditCardNumber

/-- The subscriber `card_token` column after `astype(str)`: `NaN` prints as `nan`. -/
def subTokenStr (s : TaggedRow) : String := s.sub.card_token.getD "nan"

/-- The outer join of the filtered mapping data with the subscriber data on
`card_token`: matched pairs, mapping-only rows, then subscriber-only rows. -/
def bsPairs (ms : List BsMapRow) (ss : List TaggedRow) :
    List (Option BsMapRow × Option TaggedRow) :=
  (ms.flatMap (fun m =>
    let hits := ss.filter (fun s => subTokenStr s == bsToken m)
    if hits.isEmpty then [(some m, none)]
    else hits.map (fun s => (some m, some s))))
  ++ ((ss.filter (fun s => ms.all (fun m => !(bsToken m == subTokenStr s)))).map
      (fun s => ((none : Option BsMapRow), some s)))

/-- The value of the joined `card_token` column before the pipeline overwrites
it: both sides of a matched pair carry the join key, an unmatched row keeps its
own key value. -/
def bsPairKey : Option BsMapRow × Option TaggedRow → String
  | (some m, _) => bsToken m
  | (none, some s) => subTokenStr s
  | (none, none) => ""

/-- `card_holder_name` built in the mapping data: `First Name`.strip + space +
`Last Name`.strip; `NaN` when either side is `NaN` (pandas string + `NaN`). -/
def bsHolderName (m : BsMapRow) : Option String :=
  match m.firstName, m.lastName with
  | some f, some l => some (stripStr f ++ " " ++ stripStr l)
  | _, _ => none

/-- One Bluesnap merged row. `isDuplicateToken` is computed from the
pre-overwrite key column (`keys`); afterwards `card_token` is replaced by the
original full card number for matched rows and set to null for unmatched ones. -/
def bsRowOf (keys : List String) (p : Option BsMapRow × Option TaggedRow) : MergedRow :=
  { rowId := p.2.map (·.rowId)
    joinKey := bsPairKey p
    isDuplicateToken := decide (2 ≤ keys.count (bsPairKey p))
    hasMappingMatch := p.1.isSome
    card_token := p.1.map (·.creditCardNumber)
    card_id := none
    card_holder_name := p.1.bind bsHolderName
    customer_email := p.2.bind (·.sub.customer_email)
    customer_full_name := p.2.bind (·.sub.customer_full_name)
    address_country_code := p.2.bind (·.sub.address_country_code)
    address_postal_code := p.2.bind (·.sub.address_postal_code)
    subscription_external_id := p.2.bind (·.sub.subscription_external_id)
    mappingZip := p.1.bind (·.zipCode) }

/-- The Bluesnap branch of the provider merge engine. -/
def bsMerged (ms : List BsMapRow) (ss : List TaggedRow) : List MergedRow :=
  let pairs := bsPairs ms ss
  pairs.map (bsRowOf (pairs.map bsPairKey))

/-! ## Stripe (direct-id) merge branch -/

/-- The joined `card_id` column: the mapping `card.id` for rows with a mapping
side, the renamed subscriber `card_token` otherwise. -/
def stKey : Option StMapRow × Option TaggedRow → Option String
  | (some m, _) => m.cardId
  | (none, some s) => s.sub.card_token
  | (none, none) => none

/-- The outer join of the mapping data with the subscriber data on `card_id`
(null keys match nothing; such rows are dropped by the filter just after). -/
def stPairs (ms : List StMapRow) (ss : List TaggedRow) :
    List (Option StMapRow × Option TaggedRow) :=
  (ms.flatMap (fun m =>
    let hits := ss.filter (fun s => m.cardId.isSome && (s.sub.card_token == m.cardId))
    if hits.isEmpty then [(some m, none)]
    else hits.map (fun s => (some m, some s))))
  ++ ((ss.filter (fun s =>
        ms.all (fun m => !(m.cardId.isSome && (s.sub.card_token == m.cardId))))).map
      (fun s => ((none : Option StMapRow), some s)))

/-- `finaljoin[finaljoin['card_id'].notna()]`. -/
def stFiltered (ms : List StMapRow) (ss : List TaggedRow) :
    List (Option StMapRow × Option TaggedRow) :=
  (stPairs ms ss).filter (fun p => (stKey p).isSome)

/-- One Stripe merged row. `isDuplicateToken` is computed on `card_id` before
`card.number` is renamed to `card_token`; the missing cardholder name is filled
from the subscriber's `customer_full_name`. -/
def stRowOf (keys : List (Option String)) (p : Option StMapRow × Option TaggedRow) :
    MergedRow :=
  { rowId := p.2.map (·.rowId)
    joinKey := (stKey p).getD ""
    isDuplicateToken := decide (2 ≤ keys.count (stKey p))
    hasMappingMatch := p.1.isSome
    card_token := p.1.bind (·.cardNumber)
    card_id := stKey p
    card_holder_name := (p.1.bind (·.cardName)).or (p.2.bind (·.sub.customer_full_name))
    customer_email := p.2.bind (·.sub.customer_email)
    customer_full_name := p.2.bind (·.sub.customer_full_name)
    address_country_code := p.2.bind (·.sub.address_country_code)
    address_postal_code := p.2.bind (·.sub.address_postal_code)
    subscription_external_id := p.2.bind (·.sub.subscription_external_id)
    mappingZip := p.1.bind (·.cardAddressZip) }

/-- The Stripe branch of the provider merge engine. -/
def stMerged (ms : List StMapRow) (ss : List TaggedRow) : List MergedRow :=
  let pairs := stFiltered ms ss
  pairs.map (stRowOf (pairs.map stKey))

/-! ## Validation stages -/

/-- One collected stage result (`validation_results` entry), projected to the
fields the propagation policy inspects. -/
structure VResult where
  step : String
  valid : Bool
  count : Nat
deriving DecidableEq, Repr

/-- `validate_subscriber_columns`: valid iff every required column is present. -/
def validateSubscriberColumns (cols : List String) : VResult :=
  let missing := requiredColumns.filter (fun c => !(cols.contains c))
  { step := "column_validation", valid := missing.isEmpty, count := missing.length }

/-- The rows flagged by `validate_unsupported_countries` (a `NaN` country is
not flagged, matching `isin`). -/
def countryFlagged (ss : List TaggedRow) : List TaggedRow :=
  ss.filter (fun s =>
    match s.sub.address_country_code with
    | some c => unsupportedCountries.contains c
    | none => false)

/-- The unsupported-countries stage: its result and the flagged row ids. -/
def countryStage (ss : List TaggedRow) : VResult × List Nat :=
  let bad := countryFlagged ss
  ({ step := "unsupported_countries_validation", valid := bad.isEmpty, count := bad.length },
   bad.map (·.rowId))

/-- Both period-date cells of a row pass `check_date_format`. -/
def dateFormatOk (s : TaggedRow) : Bool :=
  checkDateFormat s.sub.current_period_started_at &&
  checkDateFormat s.sub.current_period_ends_at

/-- The date-format stage (`validate_date_format`). -/
def dateFormatStage (ss : List TaggedRow) : VResult × List Nat :=
  let bad := ss.filter (fun s => !dateFormatOk s)
  ({ step := "date_format_validation", valid := bad.isEmpty, count := bad.length },
   bad.map (·.rowId))

/-- The date-logic stage (`validate_date_periods`): only rows whose two dates
both parse are compared with `now`; when no row parses the stage reports
invalid (`No valid date records found`) with no flagged ids. -/
def dateLogicStage (now : Nat) (ss : List TaggedRow) : VResult × List Nat :=
  let parsed := ss.filterMap (fun s =>
    match parseDate s.sub.current_period_started_at,
          parseDate s.sub.current_period_ends_at with
    | some a, some b => some (s.rowId, a, b)
    | _, _ => none)
  if parsed.isEmpty then
    ({ step := "date_validation", valid := false, count := 0 }, [])
  else
    let bad := parsed.filter (fun t => decide (now < t.2.1) || decide (t.2.2 < now))
    ({ step := "date_validation", valid := bad.isEmpty, count := bad.length },
     bad.map (·.1))

/-- A merged row has a usable postal code (`notna` and non-blank after strip). -/
def hasPostal (r : MergedRow) : Bool :=
  match r.address_postal_code with
  | some z => !(stripStr z == "")
  | none => false

/-- The row's country is one that requires a postal code. -/
def inRequiredZipCountry (r : MergedRow) : Bool :=
  match r.address_country_code with
  | some c => requiredZipCountries.contains c
  | none => false

/-- The rows `validate_missing_zip_codes` reports as missing. -/
def mzMissing (ws : List MergedRow) : List MergedRow :=
  ws.filter (fun r => inRequiredZipCountry r && !hasPostal r)

/-- The provider mapping-zip cell is usable (`notna` and non-blank). -/
def hasMappingZip (r : MergedRow) : Bool :=
  match r.mappingZip with
  | some z => !(stripStr z == "")
  | none => false

/-- `clean_dataframe_for_csv` on one optional cell: `NaN` becomes the empty
string, a literal `nan` becomes the empty string, one trailing `.0` is removed. -/
def cleanCell (v : Option String) : String :=
  match v with
  | none => ""
  | some s =>
    let s := if s == "nan" then "" else s
    if endsDot0 s then dropLast2 s else s

/-- The per-row cleaning the backfill applies to a mapping zip value: strip,
drop a trailing `.0` run, and for US rows keep the part before a dash and then
the digits only (when any digit remains). -/
def cleanMappingZip (isUS : Bool) (z : String) : String :=
  let c := stripStr z
  let c := if endsDot0 c then rstripDot0 c else c
  if isUS then
    let c := if c.data.contains '-' then beforeDash c else c
    let d := digitsOnly c
    if d == "" then c else d
  else c

/-- Backfill of one row: a missing-postal row whose (cleaned) mapping zip is
non-blank gets it copied into `address_postal_code`. -/
def backfillRow (r : MergedRow) : MergedRow :=
  let mz := cleanCell r.mappingZip
  if inRequiredZipCountry r && !hasPostal r && !(stripStr mz == "") then
    let z := cleanMappingZip (r.address_country_code == some "US") mz
    { r with address_postal_code := some z }
  else r

/-- The missing-zip stage: detection, the optional backfill-and-revalidate
path (taken when the caller opted in and some missing row is recoverable), and
the flagged ids of the rows still missing. Returns the possibly updated
working set. -/
def mzStage (useMappingZip : Bool) (ws : List MergedRow) :
    VResult × List Nat × List MergedRow :=
  let missing := mzMissing ws
  if missing.isEmpty then
    ({ step := "missing_zip_code_validation", valid := true, count := 0 }, [], ws)
  else if useMappingZip && !(missing.filter hasMappingZip).isEmpty then
    let ws2 := ws.map backfillRow
    let missing2 := mzMissing ws2
    if missing2.isEmpty then
      ({ step := "missing_zip_code_validation", valid := true, count := 0 }, [], ws2)
    else
      ({ step := "missing_zip_code_validation", valid := false, count := missing2.length },
       missing2.filterMap (·.rowId), ws2)
  else
    ({ step := "missing_zip_code_validation", valid := false, count := missing.length },
     missing.filterMap (·.rowId), ws)

/-- The CA rows with a postal code that fails the Canadian regex. -/
def caInvalid (ws : List MergedRow) : List MergedRow :=
  ws.filter (fun r => r.address_country_code == some "CA" && hasPostal r &&
    !matchesCaZip (r.address_postal_code.getD ""))

/-- The CA-zip stage (`validate_ca_zip_codes`). -/
def caStage (ws : List MergedRow) : VResult × List Nat :=
  let bad := caInvalid ws
  ({ step := "ca_zip_code_validation", valid := bad.isEmpty, count := bad.length },
   bad.filterMap (·.rowId))

/-- The US rows with a postal code that is not exactly five digits. -/
def usInvalid (ws : List MergedRow) : List MergedRow :=
  ws.filter (fun r => r.address_country_code == some "US" && hasPostal r &&
    !matchesUsZip (r.address_postal_code.getD ""))

/-- The US rows with a four-digit code (the autocorrectable count). -/
def usAutocorrectable (ws : List MergedRow) : List MergedRow :=
  ws.filter (fun r => r.address_country_code == some "US" && hasPostal r &&
    isFourDigits (r.address_postal_code.getD ""))

/-- The autocorrect pass on one row: a US row whose code (as a string, `NaN`
printing as `nan`) is exactly four digits is zero-filled to five. -/
def autocorrectRow (r : MergedRow) : MergedRow :=
  if r.address_country_code == some "US" &&
     isFourDigits (r.address_postal_code.getD "nan") then
    { r with address_postal_code := some (zfill5 (r.address_postal_code.getD "nan")) }
  else r

/-- The US-zip stage (`validate_us_zip_codes` plus the opt-in autocorrect and
re-validation); returns the possibly updated working set. -/
def usStage (autocorrect : Bool) (ws : List MergedRow) :
    VResult × List Nat × List MergedRow :=
  let bad := usInvalid ws
  if bad.isEmpty then
    ({ step := "us_zip_code_validation", valid := true, count := 0 }, [], ws)
  else if autocorrect && !(usAutocorrectable ws).isEmpty then
    let ws2 := ws.map autocorrectRow
    let bad2 := usInvalid ws2
    if bad2.isEmpty then
      ({ step := "us_zip_code_validation", valid := true, count := 0 }, [], ws2)
    else
      ({ step := "us_zip_code_validation", valid := false, count := bad2.length },
       bad2.filterMap (·.rowId), ws2)
  else
    ({ step := "us_zip_code_validation", valid := false, count := bad.length },
     bad.filterMap (·.rowId), ws)

/-- Sandbox anonymization: every row's email is replaced by a generated
placeholder, the generator stream supplying the random part per row index. -/
def anonymizeEmails (gen : Nat → String) (ws : List MergedRow) : List MergedRow :=
  ws.enum.map (fun p =>
    { p.2 with customer_email := some ("blackhole+" ++ gen p.1 ++ "@paddle.com") })

/-- `duplicated(subset=key, keep=False)`: the rows whose key value occurs at
least twice (pandas treats equal `NaN`s as duplicates of each other). -/
def dupOn (key : MergedRow → Option String) (ws : List MergedRow) : List MergedRow :=
  ws.filter (fun r => decide (2 ≤ ws.countP (fun x => key x == key r)))

/-! ## The run driver (`process_migration`) -/

/-- The inputs of one run: the subscriber header set, the two tables, the
provider selector and the option flags, plus the sampled `now`.

`cols` is the header list as the column-contract validator inspects it; the
data the later stages read is carried by the row records themselves. The
embedding therefore covers the runs in which the data-bearing columns exist
while the header may still miss required names (such as `business_name`): a
header lacking a data-bearing column — `card_token` at the merge,
`current_period_started_at`/`current_period_ends_at` in the date stages,
`customer_email` at the post-merge filter — makes the source raise or drain
the working set instead, and such runs are not represented here. -/
structure RunInput where
  cols : List String
  subs : List SubRow
  bsMaps : List BsMapRow
  stMaps : List StMapRow
  provider : String
  isSandbox : Bool
  autocorrectUsZip : Bool
  useMappingZipCodes : Bool
  now : Nat
deriving Repr

/-- `provider.lower() == 'bluesnap'`; any other provider takes the Stripe path
of the merge. -/
def RunInput.isBluesnap (i : RunInput) : Bool := lowerStr i.provider == "bluesnap"

/-- The tagged subscriber table. -/
def runTagged (i : RunInput) : List TaggedRow := tagRows i.subs

/-- The column-contract result; it flags no rows and never stops the run. -/
def runColRes (i : RunInput) : VResult := validateSubscriberColumns i.cols

/-- The unsupported-countries stage of the run (on the pre-merge table). -/
def runCountry (i : RunInput) : VResult × List Nat := countryStage (runTagged i)

/-- The date-format stage of the run (on the pre-merge table). -/
def runDf (i : RunInput) : VResult × List Nat := dateFormatStage (runTagged i)

/-- The date-logic stage of the run (on the pre-merge table). -/
def runDl (i : RunInput) : VResult × List Nat := dateLogicStage i.now (runTagged i)

/-- The provider merge, branch selected by the provider string. -/
def runMerged (i : RunInput) : List MergedRow :=
  if i.isBluesnap then bsMerged i.bsMaps (runTagged i)
  else stMerged i.stMaps (runTagged i)

/-- The missing-zip stage of the run (on the merged set, before the email
filter). -/
def runMz (i : RunInput) : VResult × List Nat × List MergedRow :=
  mzStage i.useMappingZipCodes (runMerged i)

/-- `completed = completed[completed['customer_email'].notna()]`. -/
def runWsEmail (i : RunInput) : List MergedRow :=
  (runMz i).2.2.filter (fun r => r.customer_email.isSome)

/-- The pre-anonymization duplicate-email snapshot; sandbox mode skips the
detection and keeps an empty frame. -/
def runDupEmailsPre (i : RunInput) : List MergedRow :=
  if i.isSandbox then [] else dupOn (·.customer_email) (runWsEmail i)

/-- The working set after the optional sandbox anonymization. -/
def runWsAnon (i : RunInput) (gen : Nat → String) : List MergedRow :=
  if i.isSandbox then anonymizeEmails gen (runWsEmail i) else runWsEmail i

/-- The CA-zip stage of the run. -/
def runCa (i : RunInput) (gen : Nat → String) : VResult × List Nat :=
  caStage (runWsAnon i gen)

/-- The US-zip stage of the run. -/
def runUs (i : RunInput) (gen : Nat → String) : VResult × List Nat × List MergedRow :=
  usStage i.autocorrectUsZip (runWsAnon i gen)

/-- The working set after every stage has run (post US autocorrect). -/
def runWsFinal (i : RunInput) (gen : Nat → String) : List MergedRow :=
  (runUs i gen).2.2

/-- The duplicate-token report: the rows carrying the `is_duplicate_token`
flag that was set at merge time, before the key column was overwritten. -/
def runDupTokens (i : RunInput) (gen : Nat → String) : List MergedRow :=
  (runWsFinal i gen).filter (·.isDuplicateToken)

/-- The duplicate-card-id report (Stripe only). -/
def runDupCardIds (i : RunInput) (gen : Nat → String) : List MergedRow :=
  if lowerStr i.provider == "stripe" then
    (runWsFinal i gen).filter (fun r => r.card_id.isSome &&
      decide (2 ≤ (runWsFinal i gen).countP (fun x => x.card_id == r.card_id)))
  else []

/-- The duplicate-external-subscription-id report. -/
def runDupSubIds (i : RunInput) (gen : Nat → String) : List MergedRow :=
  dupOn (·.subscription_external_id) (runWsFinal i gen)

/-- The no-token partition, taken before failure removal. -/
def runNoTokens (i : RunInput) (gen : Nat → String) : List MergedRow :=
  (runWsFinal i gen).filter (fun r => r.card_token.isNone)

/-- The row ids of the no-token rows, added to the failure set. -/
def runNoTokenIds (i : RunInput) (gen : Nat → String) : List Nat :=
  (runNoTokens i gen).filterMap (·.rowId)

/-- The aggregated failure set (`failed_row_ids`): the union of every stage's
flagged row ids plus the no-token ids. -/
def runFailedRowIds (i : RunInput) (gen : Nat → String) : List Nat :=
  (runCountry i).2 ++ (runDf i).2 ++ (runDl i).2 ++ (runMz i).2.1 ++
  (runCa i gen).2 ++ (runUs i gen).2.1 ++ runNoTokenIds i gen

/-- The one removal pass: rows whose id is in the failure set are dropped
(`row_id not in failure_set`; rows with no id are kept by `~isin`). -/
def runWsRemoved (i : RunInput) (gen : Nat → String) : List MergedRow :=
  (runWsFinal i gen).filter (fun r =>
    match r.rowId with
    | some k => !(runFailedRowIds i gen).contains k
    | none => true)

/-- The final success set: the remaining rows with a non-null card token. -/
def runSuccess (i : RunInput) (gen : Nat → String) : List MergedRow :=
  (runWsRemoved i gen).filter (fun r => r.card_token.isSome)

/-- The `no_token_found` entry (always appended; valid iff no row lacks a token). -/
def runNoTokenRes (i : RunInput) (gen : Nat → String) : VResult :=
  { step := "no_token_found", valid := (runNoTokens i gen).isEmpty,
    count := (runNoTokens i gen).length }

/-- The unconditionally appended valid missing-zip entry (the source's append
after the branch is dedented out of it and always executes). -/
def mzAlwaysRes : VResult :=
  { step := "missing_zip_code_validation", valid := true, count := 0 }

/-- The duplicate-warning entries (appended only when non-empty, never a
failure). -/
def runWarnings (i : RunInput) (gen : Nat → String) : List VResult :=
  (if (runDupTokens i gen).isEmpty then [] else
    [{ step := "duplicate_tokens", valid := true, count := (runDupTokens i gen).length }]) ++
  (if (runDupSubIds i gen).isEmpty then [] else
    [{ step := "duplicate_external_subscription_ids", valid := true,
       count := (runDupSubIds i gen).length }]) ++
  (if (runDupEmailsPre i).isEmpty then [] else
    [{ step := "duplicate_emails", valid := true, count := (runDupEmailsPre i).length }]) ++
  (if lowerStr i.provider == "stripe" && !(runDupCardIds i gen).isEmpty then
    [{ step := "duplicate_card_ids", valid := true, count := (runDupCardIds i gen).length }]
   else [])

/-- Every collected `ValidationResult` of the run, in collection order. -/
def runValidationResults (i : RunInput) (gen : Nat → String) : List VResult :=
  [runColRes i, (runCountry i).1, (runDf i).1, (runDl i).1, (runMz i).1, mzAlwaysRes,
   (runCa i gen).1, (runUs i gen).1]
  ++ runWarnings i gen ++ [runNoTokenRes i gen]
  ++ (if (runSuccess i gen).isEmpty then [] else
      [{ step := "successfully_mapped_records", valid := true,
         count := (runSuccess i gen).length }])

/-- The one fatal decision, made after every stage has run: the run fails iff
some collected result is invalid. -/
def runOverallFailed (i : RunInput) (gen : Nat → String) : Bool :=
  (runValidationResults i gen).any (fun v => !v.valid)

/-! ## Concrete inputs used by witnesses and counterexamples -/

/-- A generator stream standing in for one run of the random email generator. -/
def genX : Nat → String := fun _ => "xxxxx"

/-- A second generator stream (a different run of the generator). -/
def genY : Nat → String := fun _ => "yyyyy"

/-- A fixed `now`: the encoding of 2025-01-01T00:00:00Z. -/
def now0 : Nat := 20250101000000

/-- A fully valid subscriber row whose token matches `okBsMap`. -/
def okSubBs : SubRow :=
  { card_token := some "acc11234"
    customer_email := some "user@example.com"
    customer_full_name := some "Jane Doe"
    address_country_code := some "DE"
    address_postal_code := some "10115"
    current_period_started_at := some "2020-01-01T00:00:00Z"
    current_period_ends_at := some "2030-01-01T00:00:00Z"
    subscription_external_id := some "sub1" }

/-- A Bluesnap mapping row with synthetic token `acc11234`. -/
def okBsMap : BsMapRow :=
  { accountId := "acc1"
    creditCardNumber := "4242424242421234"
    firstName := some "Ann"
    lastName := some "Bee"
    zipCode := none }

/-- A second Bluesnap mapping row with the same synthetic token `acc11234`. -/
def dupBsMap : BsMapRow :=
  { accountId := "acc1"
    creditCardNumber := "5151515151511234"
    firstName := some "Cal"
    lastName := some "Dee"
    zipCode := none }

/-- A fully valid subscriber row for the Stripe branch. -/
def okSubSt : SubRow :=
  { okSubBs with card_token := some "card_1" }

/-- A Stripe mapping row matching `okSubSt`. -/
def okStMap : StMapRow :=
  { cardId := some "card_1"
    cardNumber := some "4242424242424242"
    cardName := some "Ann Bee"
    cardAddressZip := none }

/-- A clean Bluesnap production run with one matched row. -/
def okBsIn : RunInput :=
  { cols := requiredColumns, subs := [okSubBs], bsMaps := [okBsMap], stMaps := []
    provider := "bluesnap", isSandbox := false, autocorrectUsZip := false
    useMappingZipCodes := false, now := now0 }

/-- A Stripe run whose subscriber file lacks the required `business_name`
column but whose rows are all valid. -/
def missingColIn : RunInput :=
  { cols := requiredColumns.filter (fun c => !(c == "business_name"))
    subs := [okSubSt], bsMaps := [], stMaps := [okStMap]
    provider := "stripe", isSandbox := false, autocorrectUsZip := false
    useMappingZipCodes := false, now := now0 }

/-- A Bluesnap run in which two mapping rows share the synthetic token of the
single subscriber row. -/
def fanoutIn : RunInput :=
  { okBsIn with bsMaps := [okBsMap, dupBsMap] }

/-- A second valid subscriber sharing `okSubBs`'s email, matching `bsMap2`. -/
def dupEmailSub : SubRow :=
  { okSubBs with card_token := some "acc25678" }

/-- A Bluesnap mapping row with synthetic token `acc25678`. -/
def bsMap2 : BsMapRow :=
  { accountId := "acc2"
    creditCardNumber := "4242424242425678"
    firstName := some "Cal"
    lastName := some "Dee"
    zipCode := none }

/-- A sandbox Bluesnap run with two rows sharing a customer email. -/
def sandboxDupIn : RunInput :=
  { okBsIn with
    subs := [okSubBs, dupEmailSub]
    bsMaps := [okBsMap, bsMap2]
    isSandbox := true }

/-- A sandbox Bluesnap run with one matched row. -/
def sandboxIn : RunInput :=
  { okBsIn with isSandbox := true }

/-- A Bluesnap mapping row with a missing first name (token `acc11234`). -/
def noNameBsMap : BsMapRow :=
  { okBsMap with firstName := none }

/-- The success row the clean Bluesnap run produces. -/
def okBsRow : MergedRow :=
  { rowId := some 0, joinKey := "acc11234", isDuplicateToken := false
    hasMappingMatch := true, card_token := some "4242424242421234", card_id := none
    card_holder_name := some "Ann Bee", customer_email := some "user@example.com"
    customer_full_name := some "Jane Doe", address_country_code := some "DE"
    address_postal_code := some "10115", subscription_external_id := some "sub1"
    mappingZip := none }

/-- The first merged row of the fan-out run (flagged as a duplicate token). -/
def fanRow : MergedRow :=
  { okBsRow with isDuplicateToken := true }

/-- A Stripe mapping row with a missing cardholder name. -/
def noNameStMap : StMapRow := { okStMap with cardName := none }

/-- A Stripe subscriber row with a missing full name. -/
def noFullSubSt : SubRow := { okSubSt with customer_full_name := none }

/-- The Stripe merged row of `noNameStMap` with `noFullSubSt`: both name
sources missing. -/
def c6StRow : MergedRow :=
  { rowId := some 0, joinKey := "card_1", isDuplicateToken := false
    hasMappingMatch := true, card_token := some "4242424242424242"
    card_id := some "card_1", card_holder_name := none
    customer_email := some "user@example.com", customer_full_name := none
    address_country_code := some "DE", address_postal_code := some "10115"
    subscription_external_id := some "sub1", mappingZip := none }

/-- A subscriber row with the unsupported country code RU. -/
def ruSub : SubRow :=
  { okSubBs with card_token := some "acc25678", address_country_code := some "RU" }

/-- A Bluesnap run in which the second subscriber row has an unsupported
country, so the aggregated failure set is non-empty. -/
def badCountryIn : RunInput :=
  { okBsIn with subs := [okSubBs, ruSub], bsMaps := [okBsMap, bsMap2] }

/-- A merged row with country CA and the postal code `W1W 1W1`, whose letters
the specification excludes. -/
def caRowW : MergedRow :=
  { rowId := some 0, joinKey := "k", isDuplicateToken := false
    hasMappingMatch := true, card_token := some "t", card_id := none
    card_holder_name := none, customer_email := some "user@example.com"
    customer_full_name := none, address_country_code := some "CA"
    address_postal_code := some "W1W 1W1", subscription_external_id := none
    mappingZip := none }

/-! ## Helper lemmas -/

theorem anyInvalid_of_mem {l : List VResult} {v : VResult}
    (hv : v ∈ l) (h : v.valid = false) : l.any (fun v => !v.valid) = true := by
  rw [List.any_eq_true]
  exact ⟨v, hv, by simp [h]⟩

theorem emptyFalse_of_map_ne_nil {α β : Type} {l : List α} {f : α → β}
    (h : l.map f ≠ []) : l.isEmpty = false := by
  cases l
  · simp at h
  · rfl

theorem emptyFalse_of_filterMap_ne_nil {α β : Type} {l : List α} {f : α → Option β}
    (h : l.filterMap f ≠ []) : l.isEmpty = false := by
  cases l with
  | nil => simp at h
  | cons x xs => rfl

theorem countryStage_ids_invalid (ss : List TaggedRow)
    (h : (countryStage ss).2 ≠ []) : (countryStage ss).1.valid = false :=
  emptyFalse_of_map_ne_nil h

theorem dateFormatStage_ids_invalid (ss : List TaggedRow)
    (h : (dateFormatStage ss).2 ≠ []) : (dateFormatStage ss).1.valid = false :=
  emptyFalse_of_map_ne_nil h

theorem dateLogicStage_ids_invalid (now : Nat) (ss : List TaggedRow)
    (h : (dateLogicStage now ss).2 ≠ []) : (dateLogicStage now ss).1.valid = false := by
  simp only [dateLogicStage] at h ⊢
  split_ifs at h ⊢ with h1
  · rfl
  · exact emptyFalse_of_map_ne_nil h

theorem mzStage_ids_invalid (u : Bool) (ws : List MergedRow)
    (h : (mzStage u ws).2.1 ≠ []) : (mzStage u ws).1.valid = false := by
  simp only [mzStage] at h ⊢
  split_ifs at h ⊢ with h1 h2 h3
  · simp at h
  · simp at h
  · rfl
  · rfl

theorem usStage_ids_invalid (a : Bool) (ws : List MergedRow)
    (h : (usStage a ws).2.1 ≠ []) : (usStage a ws).1.valid = false := by
  simp only [usStage] at h ⊢
  split_ifs at h ⊢ with h1 h2 h3
  · simp at h
  · simp at h
  · rfl
  · rfl

theorem usStage_ws_cases (a : Bool) (ws : List MergedRow) :
    (usStage a ws).2.2 = ws ∨ (usStage a ws).2.2 = ws.map autocorrectRow := by
  simp only [usStage]
  split_ifs with h1 h2 h3
  · exact Or.inl rfl
  · exact Or.inr rfl
  · exact Or.inr rfl
  · exact Or.inl rfl

theorem mzStage_ws_cases (u : Bool) (ws : List MergedRow) :
    (mzStage u ws).2.2 = ws ∨ (mzStage u ws).2.2 = ws.map backfillRow := by
  simp only [mzStage]
  split_ifs with h1 h2 h3
  · exact Or.inl rfl
  · exact Or.inr rfl
  · exact Or.inr rfl
  · exact Or.inl rfl

theorem autocorrectRow_rowId (r : MergedRow) : (autocorrectRow r).rowId = r.rowId := by
  unfold autocorrectRow
  split <;> rfl

theorem autocorrectRow_email (r : MergedRow) :
    (autocorrectRow r).customer_email = r.customer_email := by
  unfold autocorrectRow
  split <;> rfl

theorem autocorrectRow_token (r : MergedRow) :
    (autocorrectRow r).card_token = r.card_token := by
  unfold autocorrectRow
  split <;> rfl

theorem backfillRow_rowId (r : MergedRow) : (backfillRow r).rowId = r.rowId := by
  simp only [backfillRow]
  split <;> rfl

theorem backfillRow_email (r : MergedRow) :
    (backfillRow r).customer_email = r.customer_email := by
  simp only [backfillRow]
  split <;> rfl

theorem mem_of_mem_map_pres {f : MergedRow → MergedRow} {ws : List MergedRow}
    {r : MergedRow}
    (hId : ∀ x, (f x).rowId = x.rowId)
    (hEm : ∀ x, (f x).customer_email = x.customer_email)
    (hr : r ∈ ws.map f) :
    ∃ r0 ∈ ws, r0.rowId = r.rowId ∧ r0.customer_email = r.customer_email := by
  obtain ⟨r0, h0, rfl⟩ := List.mem_map.1 hr
  exact ⟨r0, h0, (hId r0).symm, (hEm r0).symm⟩

/-- Every row of the post-US working set descends from a row of the
post-anonymization working set with the same id and email. -/
theorem wsFinal_from_anon (i : RunInput) (gen : Nat → String) :
    ∀ r ∈ runWsFinal i gen,
      ∃ r0 ∈ runWsAnon i gen, r0.rowId = r.rowId ∧ r0.customer_email = r.customer_email := by
  intro r hr
  unfold runWsFinal runUs at hr
  rcases usStage_ws_cases i.autocorrectUsZip (runWsAnon i gen) with hcase | hcase
  · rw [hcase] at hr
    exact ⟨r, hr, rfl, rfl⟩
  · rw [hcase] at hr
    exact mem_of_mem_map_pres autocorrectRow_rowId autocorrectRow_email hr

/-- Every row of the post-anonymization working set has a non-null email and
descends (same id) from a row of the email-filtered working set. -/
theorem wsAnon_email_isSome (i : RunInput) (gen : Nat → String) :
    ∀ r ∈ runWsAnon i gen,
      r.customer_email.isSome ∧ ∃ r0 ∈ runWsEmail i, r0.rowId = r.rowId := by
  intro r hr
  unfold runWsAnon at hr
  split at hr
  · unfold anonymizeEmails at hr
    obtain ⟨p, hp, rfl⟩ := List.mem_map.1 hr
    refine ⟨rfl, p.2, ?_, rfl⟩
    have h2 : p.2 ∈ (runWsEmail i).enum.map Prod.snd := List.mem_map_of_mem _ hp
    rwa [List.enum_map_snd] at h2
  · exact ⟨(List.mem_filter.1 hr).2, r, hr, rfl⟩

/-- Every row of the email-filtered working set descends from a merged row
with the same id. -/
theorem wsEmail_from_merged (i : RunInput) :
    ∀ r ∈ runWsEmail i, ∃ r0 ∈ runMerged i, r0.rowId = r.rowId := by
  intro r hr
  unfold runWsEmail at hr
  have hr2 := (List.mem_filter.1 hr).1
  unfold runMz at hr2
  rcases mzStage_ws_cases i.useMappingZipCodes (runMerged i) with hcase | hcase
  · rw [hcase] at hr2
    exact ⟨r, hr2, rfl⟩
  · rw [hcase] at hr2
    obtain ⟨r0, h0, h1, _⟩ :=
      mem_of_mem_map_pres backfillRow_rowId backfillRow_email hr2
    exact ⟨r0, h0, h1⟩

/-- Every row of the final working set has a non-null email. -/
theorem wsFinal_email_isSome (i : RunInput) (gen : Nat → String) :
    ∀ r ∈ runWsFinal i gen, r.customer_email.isSome := by
  intro r hr
  obtain ⟨r0, h0, _, hEm⟩ := wsFinal_from_anon i gen r hr
  have := (wsAnon_email_isSome i gen r0 h0).1
  rw [hEm] at this
  exact this

/-- Every row of the final working set descends from a merged row with the
same id. -/
theorem wsFinal_from_merged (i : RunInput) (gen : Nat → String) :
    ∀ r ∈ runWsFinal i gen, ∃ r0 ∈ runMerged i, r0.rowId = r.rowId := by
  intro r hr
  obtain ⟨r1, h1, hId, _⟩ := wsFinal_from_anon i gen r hr
  obtain ⟨_, r2, h2, hId2⟩ := wsAnon_email_isSome i gen r1 h1
  obtain ⟨r0, h0, hId0⟩ := wsEmail_from_merged i r2 h2
  exact ⟨r0, h0, by rw [hId0, hId2, hId]⟩

/-- A tagged subscriber row's id is an index into the original table. -/
theorem tagRows_rowId_lt (subs : List SubRow) :
    ∀ s ∈ tagRows subs, s.rowId < subs.length := by
  intro s hs
  unfold tagRows at hs
  obtain ⟨p, hp, rfl⟩ := List.mem_map.1 hs
  have h1 : p.1 ∈ subs.enum.map Prod.fst := List.mem_map_of_mem _ hp
  rw [List.enum_map_fst] at h1
  exact List.mem_range.1 h1

/-- A Bluesnap pair's subscriber side comes from the tagged table. -/
theorem bsPairs_snd_mem (ms : List BsMapRow) (ss : List TaggedRow) :
    ∀ p ∈ bsPairs ms ss, ∀ s : TaggedRow, p.2 = some s → s ∈ ss := by
  intro p hp s hs
  unfold bsPairs at hp
  rcases List.mem_append.1 hp with h | h
  · obtain ⟨m, _, hm⟩ := List.mem_flatMap.1 h
    by_cases hempty : (ss.filter (fun s => subTokenStr s == bsToken m)).isEmpty
    · rw [if_pos hempty] at hm
      simp only [List.mem_singleton] at hm
      rw [hm] at hs
      simp at hs
    · rw [if_neg hempty] at hm
      obtain ⟨s2, hs2, rfl⟩ := List.mem_map.1 hm
      simp at hs
      rw [← hs]
      exact (List.mem_filter.1 hs2).1
  · obtain ⟨s2, hs2, rfl⟩ := List.mem_map.1 h
    simp at hs
    rw [← hs]
    exact (List.mem_filter.1 hs2).1

/-- A Stripe pair's subscriber side comes from the tagged table. -/
theorem stPairs_snd_mem (ms : List StMapRow) (ss : List TaggedRow) :
    ∀ p ∈ stPairs ms ss, ∀ s : TaggedRow, p.2 = some s → s ∈ ss := by
  intro p hp s hs
  unfold stPairs at hp
  rcases List.mem_append.1 hp with h | h
  · obtain ⟨m, _, hm⟩ := List.mem_flatMap.1 h
    by_cases hempty :
        (ss.filter (fun s => m.cardId.isSome && (s.sub.card_token == m.cardId))).isEmpty
    · rw [if_pos hempty] at hm
      simp only [List.mem_singleton] at hm
      rw [hm] at hs
      simp at hs
    · rw [if_neg hempty] at hm
      obtain ⟨s2, hs2, rfl⟩ := List.mem_map.1 hm
      simp at hs
      rw [← hs]
      exact (List.mem_filter.1 hs2).1
  · obtain ⟨s2, hs2, rfl⟩ := List.mem_map.1 h
    simp at hs
    rw [← hs]
    exact (List.mem_filter.1 hs2).1

/-- A merged row's id, when present, indexes a row of the original subscriber
table. -/
theorem merged_rowId_lt (i : RunInput) :
    ∀ r ∈ runMerged i, ∀ k, r.rowId = some k → k < i.subs.length := by
  intro r hr k hk
  unfold runMerged at hr
  split at hr
  · unfold bsMerged at hr
    obtain ⟨p, hp, rfl⟩ := List.mem_map.1 hr
    unfold bsRowOf at hk
    simp only [Option.map_eq_some'] at hk
    obtain ⟨s, hs, hsk⟩ := hk
    have := bsPairs_snd_mem i.bsMaps (runTagged i) p hp s hs
    rw [← hsk]
    exact tagRows_rowId_lt i.subs s this
  · unfold stMerged stFiltered at hr
    obtain ⟨p, hp, rfl⟩ := List.mem_map.1 hr
    unfold stRowOf at hk
    simp only [Option.map_eq_some'] at hk
    obtain ⟨s, hs, hsk⟩ := hk
    have hp2 := (List.mem_filter.1 hp).1
    have := stPairs_snd_mem i.stMaps (runTagged i) p hp2 s hs
    rw [← hsk]
    exact tagRows_rowId_lt i.subs s this

theorem caStage_ids_invalid (ws : List MergedRow)
    (h : (caStage ws).2 ≠ []) : (caStage ws).1.valid = false :=
  emptyFalse_of_filterMap_ne_nil h

/-! ## Claims -/

/-- C1: For every run, any row whose row identity was flagged by a single-row
validator — unsupported country, date format, date logic, missing postal code,
or US/CA postal format — is absent from the final success set: the failure set
is the union of all flagged row identities (plus the no-provider-match ids),
it is applied exactly once after all stages have run, and the success set
contains only rows whose identity avoids it and whose card token is non-null. -/
theorem c1_flagged_rows_absent_from_success (i : RunInput) (gen : Nat → String) :
    runFailedRowIds i gen =
      (runCountry i).2 ++ (runDf i).2 ++ (runDl i).2 ++ (runMz i).2.1 ++
      (runCa i gen).2 ++ (runUs i gen).2.1 ++ runNoTokenIds i gen ∧
    ∀ r ∈ runSuccess i gen,
      r.card_token.isSome = true ∧ ∀ k, r.rowId = some k → k ∉ runFailedRowIds i gen := by
  refine ⟨rfl, ?_⟩
  intro r hr
  rw [runSuccess] at hr
  have h1 := List.mem_filter.1 hr
  refine ⟨h1.2, ?_⟩
  intro k hk
  have hA := h1.1
  rw [runWsRemoved] at hA
  have h2 := (List.mem_filter.1 hA).2
  rw [hk] at h2
  simpa using h2

/-- C1 witness: the theorem applied to the clean Bluesnap run at its concrete
success row. -/
theorem c1_flagged_rows_absent_from_success_witness :
    okBsRow ∈ runSuccess okBsIn genX ∧ okBsRow.card_token.isSome = true ∧
    (0 : Nat) ∉ runFailedRowIds okBsIn genX := by
  have hmem : okBsRow ∈ runSuccess okBsIn genX := by decide
  have h := (c1_flagged_rows_absent_from_success okBsIn genX).2 okBsRow hmem
  exact ⟨hmem, h.1, h.2 0 rfl⟩

/-- C2: the duplicate-token set is computed on the original join key before
the key column is overwritten with its display value: a Bluesnap merged row is
flagged iff its synthetic token (`joinKey`) occurs at least twice among the
merged rows' join keys, a Stripe merged row iff its `card_id` does, and the
duplicate-token report selects exactly the working-set rows carrying the flag. -/
theorem c2_duplicate_flag_on_join_key :
    (∀ (ms : List BsMapRow) (ss : List TaggedRow), ∀ r ∈ bsMerged ms ss,
        (r.isDuplicateToken = true ↔
          2 ≤ ((bsMerged ms ss).map (·.joinKey)).count r.joinKey)) ∧
    (∀ (ms : List StMapRow) (ss : List TaggedRow), ∀ r ∈ stMerged ms ss,
        (r.isDuplicateToken = true ↔
          2 ≤ ((stMerged ms ss).map (·.card_id)).count r.card_id)) ∧
    (∀ (i : RunInput) (gen : Nat → String),
        runDupTokens i gen = (runWsFinal i gen).filter (·.isDuplicateToken)) := by
  refine ⟨?_, ?_, fun i gen => rfl⟩
  · intro ms ss r hr
    simp only [bsMerged] at hr ⊢
    obtain ⟨p, hp, rfl⟩ := List.mem_map.1 hr
    have hcomp : ((fun r : MergedRow => r.joinKey) ∘
        bsRowOf ((bsPairs ms ss).map bsPairKey)) = bsPairKey := funext fun q => rfl
    rw [List.map_map, hcomp]
    simp [bsRowOf]
  · intro ms ss r hr
    simp only [stMerged] at hr ⊢
    obtain ⟨p, hp, rfl⟩ := List.mem_map.1 hr
    have hcomp : ((fun r : MergedRow => r.card_id) ∘
        stRowOf ((stFiltered ms ss).map stKey)) = stKey := funext fun q => rfl
    rw [List.map_map, hcomp]
    simp [stRowOf]

/-- C2 witness: the theorem applied to the fan-out Bluesnap merge at its first
merged row, whose flag is set because the synthetic token occurs twice. -/
theorem c2_duplicate_flag_on_join_key_witness :
    fanRow ∈ bsMerged [okBsMap, dupBsMap] (tagRows [okSubBs]) ∧
    2 ≤ ((bsMerged [okBsMap, dupBsMap] (tagRows [okSubBs])).map (·.joinKey)).count
        fanRow.joinKey := by
  have hmem : fanRow ∈ bsMerged [okBsMap, dupBsMap] (tagRows [okSubBs]) := by decide
  exact ⟨hmem,
    (c2_duplicate_flag_on_join_key.1 [okBsMap, dupBsMap] (tagRows [okSubBs])
      fanRow hmem).1 (by decide)⟩

/-- C3 counterexample: a run whose subscriber file lacks the required
`business_name` column fails overall although the aggregated failure set of
row identities is empty — refuting the claimed equivalence between failing and
a non-empty failure set. -/
theorem c3_failed_run_with_empty_failure_set :
    runOverallFailed missingColIn genX = true ∧
    runFailedRowIds missingColIn genX = [] := by
  exact ⟨by decide, by decide⟩

/-- C3 (amended): all stage results are collected and returned together, and
the run fails overall iff some collected `ValidationResult` is invalid; a
non-empty aggregated failure set of row identities implies failure, but not
conversely (contract errors fail the run with an empty failure set). -/
theorem c3_failure_propagation (i : RunInput) (gen : Nat → String) :
    (runOverallFailed i gen = true ↔
      ∃ v ∈ runValidationResults i gen, v.valid = false) ∧
    (runFailedRowIds i gen ≠ [] → runOverallFailed i gen = true) := by
  constructor
  · rw [runOverallFailed, List.any_eq_true]
    constructor
    · rintro ⟨v, hv, hvv⟩
      exact ⟨v, hv, by simpa using hvv⟩
    · rintro ⟨v, hv, hvv⟩
      exact ⟨v, hv, by simp [hvv]⟩
  · intro h
    rw [runOverallFailed]
    rw [runFailedRowIds] at h
    rcases eq_or_ne (runCountry i).2 [] with hA | hA
    swap
    · refine anyInvalid_of_mem ?_ (show (runCountry i).1.valid = false from
        countryStage_ids_invalid (runTagged i) hA)
      simp [runValidationResults]
    rw [hA] at h
    simp only [List.nil_append] at h
    rcases eq_or_ne (runDf i).2 [] with hB | hB
    swap
    · refine anyInvalid_of_mem ?_ (show (runDf i).1.valid = false from
        dateFormatStage_ids_invalid (runTagged i) hB)
      simp [runValidationResults]
    rw [hB] at h
    simp only [List.nil_append] at h
    rcases eq_or_ne (runDl i).2 [] with hC | hC
    swap
    · refine anyInvalid_of_mem ?_ (show (runDl i).1.valid = false from
        dateLogicStage_ids_invalid i.now (runTagged i) hC)
      simp [runValidationResults]
    rw [hC] at h
    simp only [List.nil_append] at h
    rcases eq_or_ne (runMz i).2.1 [] with hD | hD
    swap
    · refine anyInvalid_of_mem ?_ (show (runMz i).1.valid = false from
        mzStage_ids_invalid i.useMappingZipCodes (runMerged i) hD)
      simp [runValidationResults]
    rw [hD] at h
    simp only [List.nil_append] at h
    rcases eq_or_ne (runCa i gen).2 [] with hE | hE
    swap
    · refine anyInvalid_of_mem ?_ (show (runCa i gen).1.valid = false from
        caStage_ids_invalid (runWsAnon i gen) hE)
      simp [runValidationResults]
    rw [hE] at h
    simp only [List.nil_append] at h
    rcases eq_or_ne (runUs i gen).2.1 [] with hF | hF
    swap
    · refine anyInvalid_of_mem ?_ (show (runUs i gen).1.valid = false from
        usStage_ids_invalid i.autocorrectUsZip (runWsAnon i gen) hF)
      simp [runValidationResults]
    rw [hF] at h
    simp only [List.nil_append] at h
    refine anyInvalid_of_mem ?_ (show (runNoTokenRes i gen).valid = false from
      emptyFalse_of_filterMap_ne_nil h)
    simp [runValidationResults]

/-- C3 witness: the theorem applied to a run with an unsupported-country row,
whose failure set is non-empty. -/
theorem c3_failure_propagation_witness :
    runFailedRowIds badCountryIn genX ≠ [] ∧
    runOverallFailed badCountryIn genX = true :=
  ⟨by decide, (c3_failure_propagation badCountryIn genX).2 (by decide)⟩

/-- C5 counterexample: in a sandbox run two rows share a customer email before
anonymization, yet the duplicate-emails report is empty and no
duplicate-emails warning is collected — sandbox mode skips duplicate-email
detection entirely rather than reporting the pre-anonymization duplicates. -/
theorem c5_sandbox_skips_duplicate_emails :
    2 ≤ (runWsEmail sandboxDupIn).countP
        (fun r => r.customer_email == some "user@example.com") ∧
    runDupEmailsPre sandboxDupIn = [] ∧
    (runWarnings sandboxDupIn genX).all (fun v => !(v.step == "duplicate_emails")) = true := by
  exact ⟨by decide, by decide, by decide⟩

/-- C5 (amended): the duplicate-emails report reflects the pre-anonymization
working set only in production mode, where every reported row shares its email
with at least two rows of that set; in sandbox mode detection is skipped — the
report is empty regardless of shared emails — and anonymization then rewrites
every remaining row's email. -/
theorem c5_duplicate_email_report (i : RunInput) (gen : Nat → String) :
    (i.isSandbox = true → runDupEmailsPre i = [] ∧
      runWsAnon i gen = anonymizeEmails gen (runWsEmail i)) ∧
    (i.isSandbox = false →
      runDupEmailsPre i = dupOn (fun r => r.customer_email) (runWsEmail i) ∧
      runWsAnon i gen = runWsEmail i) ∧
    (∀ r ∈ runDupEmailsPre i,
      2 ≤ (runWsEmail i).countP (fun x => x.customer_email == r.customer_email)) := by
  refine ⟨fun h => ?_, fun h => ?_, ?_⟩
  · constructor <;> simp [runDupEmailsPre, runWsAnon, h]
  · constructor <;> simp [runDupEmailsPre, runWsAnon, h]
  · intro r hr
    rw [runDupEmailsPre] at hr
    split at hr
    · simp at hr
    · unfold dupOn at hr
      exact of_decide_eq_true (List.mem_filter.1 hr).2

/-- C5 witness: the theorem applied to the sandbox run with duplicate emails
and to the clean production run. -/
theorem c5_duplicate_email_report_witness :
    runDupEmailsPre sandboxDupIn = [] ∧
    runDupEmailsPre okBsIn = dupOn (fun r => r.customer_email) (runWsEmail okBsIn) :=
  ⟨((c5_duplicate_email_report sandboxDupIn genX).1 rfl).1,
   ((c5_duplicate_email_report okBsIn genX).2.1 rfl).1⟩

/-- C6 counterexample: in the synthesized-token branch a merged row whose
mapping first name is missing keeps a null cardholder name although the
subscriber's full name is present — the Bluesnap branch performs no fallback. -/
theorem c6_bluesnap_missing_name_not_filled :
    (bsMerged [noNameBsMap] (tagRows [okSubBs])).map
      (fun r => (r.card_holder_name, r.customer_full_name)) =
    [(none, some "Jane Doe")] := by decide

/-- C6 (amended): only the direct-id (Stripe) branch fills a missing
cardholder name from the subscriber's full name — a Stripe merged row has a
null cardholder name only when the full name is null too, while a Bluesnap
merged row's cardholder name comes from the mapping names alone, so an
unmatched Bluesnap row never receives one. -/
theorem c6_cardholder_fallback_stripe_only :
    (∀ (ms : List StMapRow) (ss : List TaggedRow), ∀ r ∈ stMerged ms ss,
        r.card_holder_name = none → r.customer_full_name = none) ∧
    (∀ (ms : List BsMapRow) (ss : List TaggedRow), ∀ r ∈ bsMerged ms ss,
        r.hasMappingMatch = false → r.card_holder_name = none) := by
  constructor
  · intro ms ss r hr hnone
    simp only [stMerged] at hr
    obtain ⟨p, hp, rfl⟩ := List.mem_map.1 hr
    simp only [stRowOf] at hnone ⊢
    cases hx : p.1.bind (fun m => m.cardName) with
    | some a => rw [hx] at hnone; simp [Option.or] at hnone
    | none => rw [hx] at hnone; simpa [Option.or] using hnone
  · intro ms ss r hr hmatch
    simp only [bsMerged] at hr
    obtain ⟨p, hp, rfl⟩ := List.mem_map.1 hr
    simp only [bsRowOf] at hmatch ⊢
    cases hp1 : p.1 with
    | some m => rw [hp1] at hmatch; simp at hmatch
    | none => rfl

/-- C6 witness: the theorem applied to a Stripe merge in which both name
sources are missing. -/
theorem c6_cardholder_fallback_stripe_only_witness :
    c6StRow ∈ stMerged [noNameStMap] (tagRows [noFullSubSt]) ∧
    c6StRow.customer_full_name = none := by
  have hmem : c6StRow ∈ stMerged [noNameStMap] (tagRows [noFullSubSt]) := by decide
  exact ⟨hmem,
    c6_cardholder_fallback_stripe_only.1 [noNameStMap] (tagRows [noFullSubSt])
      c6StRow hmem (by decide)⟩

/-- C7 (code bug): the Canadian postal-code character class of
`validate_ca_zip_codes` ends in the range `V-Z` and therefore admits the
letters W and Z, contradicting the claim and the comment directly above the
pattern in the source: the code `W1W 1W1` passes the implemented regex, fails
the specification's format, and a CA row carrying it is not flagged. -/
theorem c7_ca_regex_admits_w_and_z :
    matchesCaZip "W1W 1W1" = true ∧ matchesCaZipSpec "W1W 1W1" = false ∧
    matchesCaZip "Z1Z 1Z1" = true ∧ matchesCaZipSpec "Z1Z 1Z1" = false ∧
    caInvalid [caRowW] = [] ∧ (caStage [caRowW]).1.valid = true ∧
    (caStage [caRowW]).2 = [] := by
  exact ⟨by decide, by decide, by decide, by decide, by decide, by decide, by decide⟩

/-- C8 counterexample: the same sandbox run executed against two generator
streams — two executions of the unseeded random email generator — produces
different success artifacts. -/
theorem c8_sandbox_run_not_deterministic :
    runSuccess sandboxIn genX ≠ runSuccess sandboxIn genY := by decide

/-- C8 (amended): with the sandbox flag off, a run is deterministic — for a
fixed pair of input tables, fixed now and fixed option flags, every artifact
and every collected result is independent of the random generator stream;
with sandbox on, the anonymized emails depend on the stream. -/
theorem c8_production_run_deterministic (i : RunInput) (g1 g2 : Nat → String)
    (h : i.isSandbox = false) :
    runSuccess i g1 = runSuccess i g2 ∧
    runNoTokens i g1 = runNoTokens i g2 ∧
    runDupTokens i g1 = runDupTokens i g2 ∧
    runDupSubIds i g1 = runDupSubIds i g2 ∧
    runDupCardIds i g1 = runDupCardIds i g2 ∧
    runValidationResults i g1 = runValidationResults i g2 ∧
    runFailedRowIds i g1 = runFailedRowIds i g2 ∧
    runOverallFailed i g1 = runOverallFailed i g2 := by
  have hA : runWsAnon i g1 = runWsAnon i g2 := by simp [runWsAnon, h]
  refine ⟨?_, ?_, ?_, ?_, ?_, ?_, ?_, ?_⟩ <;>
    simp only [runSuccess, runWsRemoved, runFailedRowIds, runNoTokenIds, runNoTokens,
      runDupTokens, runDupSubIds, runDupCardIds, runWsFinal, runUs, runCa,
      runOverallFailed, runValidationResults, runWarnings, runNoTokenRes, hA]

/-- C8 witness: the theorem applied to the clean production run and two
streams. -/
theorem c8_production_run_deterministic_witness :
    runSuccess okBsIn genX = runSuccess okBsIn genY :=
  (c8_production_run_deterministic okBsIn genX genY rfl).1

/-- C9 counterexample: a run whose subscriber file lacks the required
`business_name` column is not short-circuited — the provider merge still runs
and a non-empty success set is produced, the run being marked failed only by
the final decision. -/
theorem c9_missing_columns_do_not_short_circuit :
    (runColRes missingColIn).valid = false ∧
    runMerged missingColIn ≠ [] ∧
    runSuccess missingColIn genX ≠ [] ∧
    runOverallFailed missingColIn genX = true := by
  exact ⟨by decide, by decide, by decide, by decide⟩

/-- C9 (amended): missing required columns do not short-circuit the run: the
invalid column-validation result is collected, the later stages still run and
their results — the missing-zip, US-zip and no-token entries, all computed
from the merged set, so the provider merge was performed — are collected
alongside it, and the run is marked failed only by the final decision over the
collected results. -/
theorem c9_contract_error_defers (i : RunInput) (gen : Nat → String)
    (h : (runColRes i).valid = false) :
    runOverallFailed i gen = true ∧
    runColRes i ∈ runValidationResults i gen ∧
    (runMz i).1 ∈ runValidationResults i gen ∧
    (runUs i gen).1 ∈ runValidationResults i gen ∧
    runNoTokenRes i gen ∈ runValidationResults i gen := by
  refine ⟨anyInvalid_of_mem ?_ h, ?_, ?_, ?_, ?_⟩ <;> simp [runValidationResults]

/-- C9 witness: the theorem applied to the run missing `business_name`. -/
theorem c9_contract_error_defers_witness :
    (runColRes missingColIn).valid = false ∧
    runOverallFailed missingColIn genX = true :=
  ⟨by decide, (c9_contract_error_defers missingColIn genX (by decide)).1⟩

/-- C10: every merged row with no subscriber counterpart has a null customer
email; the email filter keeps only non-null-email rows, and the success,
no-token and all duplicate artifacts contain only such rows — a null-email row
is dropped before duplicate detection, before the no-token partition and
before failure removal. -/
theorem c10_null_email_rows_dropped (i : RunInput) (gen : Nat → String) :
    (∀ r ∈ runMerged i, r.rowId = none → r.customer_email = none) ∧
    (∀ r ∈ runWsEmail i, r.customer_email.isSome = true) ∧
    (∀ r ∈ runSuccess i gen, r.customer_email.isSome = true) ∧
    (∀ r ∈ runNoTokens i gen, r.customer_email.isSome = true) ∧
    (∀ r ∈ runDupTokens i gen, r.customer_email.isSome = true) ∧
    (∀ r ∈ runDupSubIds i gen, r.customer_email.isSome = true) ∧
    (∀ r ∈ runDupCardIds i gen, r.customer_email.isSome = true) ∧
    (∀ r ∈ runDupEmailsPre i, r.customer_email.isSome = true) := by
  have hfin := wsFinal_email_isSome i gen
  refine ⟨?_, ?_, ?_, ?_, ?_, ?_, ?_, ?_⟩
  · intro r hr hid
    rw [runMerged] at hr
    split at hr
    · simp only [bsMerged] at hr
      obtain ⟨p, hp, rfl⟩ := List.mem_map.1 hr
      simp only [bsRowOf, Option.map_eq_none'] at hid
      simp [bsRowOf, hid]
    · simp only [stMerged] at hr
      obtain ⟨p, hp, rfl⟩ := List.mem_map.1 hr
      simp only [stRowOf, Option.map_eq_none'] at hid
      simp [stRowOf, hid]
  · intro r hr
    rw [runWsEmail] at hr
    exact (List.mem_filter.1 hr).2
  · intro r hr
    rw [runSuccess] at hr
    have h1 := (List.mem_filter.1 hr).1
    rw [runWsRemoved] at h1
    exact hfin r (List.mem_filter.1 h1).1
  · intro r hr
    rw [runNoTokens] at hr
    exact hfin r (List.mem_filter.1 hr).1
  · intro r hr
    rw [runDupTokens] at hr
    exact hfin r (List.mem_filter.1 hr).1
  · intro r hr
    rw [runDupSubIds] at hr
    unfold dupOn at hr
    exact hfin r (List.mem_filter.1 hr).1
  · intro r hr
    rw [runDupCardIds] at hr
    split at hr
    · exact hfin r (List.mem_filter.1 hr).1
    · simp at hr
  · intro r hr
    rw [runDupEmailsPre] at hr
    split at hr
    · simp at hr
    · unfold dupOn at hr
      have h1 := (List.mem_filter.1 hr).1
      rw [runWsEmail] at h1
      exact (List.mem_filter.1 h1).2

/-- C10 witness: the theorem applied to the clean Bluesnap run at its concrete
success row. -/
theorem c10_null_email_rows_dropped_witness :
    okBsRow ∈ runSuccess okBsIn genX ∧ okBsRow.customer_email.isSome = true := by
  have hmem : okBsRow ∈ runSuccess okBsIn genX := by decide
  exact ⟨hmem, (c10_null_email_rows_dropped okBsIn genX).2.2.1 okBsRow hmem⟩

/-! ## Row-identity uniqueness machinery (claim C4) -/

theorem filterMap_flatMap {α β γ : Type} (l : List α) (g : α → List β) (f : β → Option γ) :
    (l.flatMap g).filterMap f = l.flatMap (fun a => (g a).filterMap f) := by
  induction l with
  | nil => rfl
  | cons x xs ih => simp only [List.flatMap_cons, List.filterMap_append, ih]

theorem filterMap_rowId_map_pres {f : MergedRow → MergedRow}
    (hf : ∀ x, (f x).rowId = x.rowId) (ws : List MergedRow) :
    (ws.map f).filterMap (·.rowId) = ws.filterMap (·.rowId) := by
  rw [List.filterMap_map]
  congr 1
  funext x
  simp [Function.comp, hf x]

theorem anonymize_filterMap_rowId (gen : Nat → String) (ws : List MergedRow) :
    (anonymizeEmails gen ws).filterMap (·.rowId) = ws.filterMap (·.rowId) := by
  rw [anonymizeEmails, List.filterMap_map]
  have h2 : ws.filterMap (·.rowId) = (ws.enum.map Prod.snd).filterMap (·.rowId) := by
    rw [List.enum_map_snd]
  rw [h2, List.filterMap_map]
  rfl

theorem wsFinal_filterMap_rowId (i : RunInput) (gen : Nat → String) :
    (runWsFinal i gen).filterMap (·.rowId) = (runWsAnon i gen).filterMap (·.rowId) := by
  rw [runWsFinal, runUs]
  rcases usStage_ws_cases i.autocorrectUsZip (runWsAnon i gen) with hc | hc <;> rw [hc]
  exact filterMap_rowId_map_pres autocorrectRow_rowId _

theorem wsAnon_filterMap_rowId (i : RunInput) (gen : Nat → String) :
    (runWsAnon i gen).filterMap (·.rowId) = (runWsEmail i).filterMap (·.rowId) := by
  rw [runWsAnon]
  split
  · exact anonymize_filterMap_rowId gen (runWsEmail i)
  · rfl

theorem wsEmail_rowIds_sublist (i : RunInput) :
    ((runWsEmail i).filterMap (·.rowId)).Sublist ((runMerged i).filterMap (·.rowId)) := by
  rw [runWsEmail, runMz]
  rcases mzStage_ws_cases i.useMappingZipCodes (runMerged i) with hc | hc <;> rw [hc]
  · exact (List.filter_sublist _).filterMap _
  · have h1 : ((((runMerged i).map backfillRow).filter
        (fun r => r.customer_email.isSome)).filterMap (fun r : MergedRow => r.rowId)).Sublist
        (((runMerged i).map backfillRow).filterMap (fun r : MergedRow => r.rowId)) :=
      (List.filter_sublist _).filterMap _
    rwa [filterMap_rowId_map_pres backfillRow_rowId] at h1

theorem tagRows_map_rowId (subs : List SubRow) :
    (tagRows subs).map (·.rowId) = List.range subs.length := by
  rw [tagRows, List.map_map]
  have h : ((fun s : TaggedRow => s.rowId) ∘ fun p : Nat × SubRow => ⟨p.1, p.2⟩) =
      (Prod.fst : Nat × SubRow → Nat) := funext fun p => rfl
  rw [h, List.enum_map_fst]

theorem tagRows_rowId_nodup (subs : List SubRow) :
    ((tagRows subs).map (·.rowId)).Nodup := by
  rw [tagRows_map_rowId]
  exact List.nodup_range _

theorem tagRows_rowId_inj (subs : List SubRow) :
    ∀ s1 ∈ tagRows subs, ∀ s2 ∈ tagRows subs, s1.rowId = s2.rowId → s1 = s2 := by
  intro s1 h1 s2 h2 h
  exact List.inj_on_of_nodup_map (tagRows_rowId_nodup subs) h1 h2 h

theorem mem_bs_gm {ss : List TaggedRow} {m : BsMapRow} {k : Nat}
    (h : k ∈ (if (ss.filter (fun s => subTokenStr s == bsToken m)).isEmpty
        then [((some m : Option BsMapRow), (none : Option TaggedRow))]
        else (ss.filter (fun s => subTokenStr s == bsToken m)).map
          (fun s => (some m, some s))).filterMap (fun p => p.2.map (·.rowId))) :
    ∃ s ∈ ss, subTokenStr s = bsToken m ∧ s.rowId = k := by
  split at h
  · simp at h
  · rw [List.filterMap_map] at h
    obtain ⟨s, hs, hk⟩ := List.mem_filterMap.1 h
    have hmem := List.mem_filter.1 hs
    refine ⟨s, hmem.1, by simpa using hmem.2, ?_⟩
    simpa using hk

theorem bs_gm_nodup {subs : List SubRow} (m : BsMapRow) :
    ((if ((tagRows subs).filter (fun s => subTokenStr s == bsToken m)).isEmpty
        then [((some m : Option BsMapRow), (none : Option TaggedRow))]
        else ((tagRows subs).filter (fun s => subTokenStr s == bsToken m)).map
          (fun s => (some m, some s))).filterMap (fun p => p.2.map (·.rowId))).Nodup := by
  split
  · simp
  · rw [List.filterMap_map]
    have heq : (((tagRows subs).filter
        (fun s => subTokenStr s == bsToken m)).filterMap
          ((fun p : Option BsMapRow × Option TaggedRow => p.2.map (·.rowId)) ∘
            (fun s => (some m, some s)))) =
        ((tagRows subs).filter (fun s => subTokenStr s == bsToken m)).map (·.rowId) :=
      congrFun (List.filterMap_eq_map (fun s : TaggedRow => s.rowId)) _
    rw [heq]
    exact List.Nodup.sublist
      ((List.filter_sublist _).map _) (tagRows_rowId_nodup subs)

theorem bsPairs_rowIds_nodup (ms : List BsMapRow) (subs : List SubRow)
    (hkeys : ms.Pairwise (fun a b => bsToken a ≠ bsToken b)) :
    ((bsPairs ms (tagRows subs)).filterMap (fun p => p.2.map (·.rowId))).Nodup := by
  rw [bsPairs, List.filterMap_append, filterMap_flatMap, List.nodup_append]
  refine ⟨?_, ?_, ?_⟩
  · rw [List.nodup_flatMap]
    constructor
    · intro m _
      exact bs_gm_nodup m
    · refine hkeys.imp ?_
      intro a b hab k hka hkb
      obtain ⟨s1, hs1, ht1, hk1⟩ := mem_bs_gm hka
      obtain ⟨s2, hs2, ht2, hk2⟩ := mem_bs_gm hkb
      have hseq : s1 = s2 :=
        tagRows_rowId_inj subs s1 hs1 s2 hs2 (by rw [hk1, hk2])
      exact hab (by rw [← ht1, hseq, ht2])
  · have heq : (((tagRows subs).filter
        (fun s => ms.all (fun m => !(bsToken m == subTokenStr s)))).map
          (fun s => ((none : Option BsMapRow), some s))).filterMap
          (fun p => p.2.map (·.rowId)) =
        ((tagRows subs).filter
          (fun s => ms.all (fun m => !(bsToken m == subTokenStr s)))).map (·.rowId) := by
      rw [List.filterMap_map]
      exact congrFun (List.filterMap_eq_map (fun s : TaggedRow => s.rowId)) _
    rw [heq]
    exact List.Nodup.sublist
      ((List.filter_sublist _).map _) (tagRows_rowId_nodup subs)
  · intro k hkA hkB
    obtain ⟨m, hm, hgm⟩ := List.mem_flatMap.1 hkA
    obtain ⟨s1, hs1, ht1, hk1⟩ := mem_bs_gm hgm
    rw [List.filterMap_map] at hkB
    obtain ⟨s2, hs2, hk2⟩ := List.mem_filterMap.1 hkB
    have hmem2 := List.mem_filter.1 hs2
    have hseq : s1 = s2 := by
      refine tagRows_rowId_inj subs s1 hs1 s2 hmem2.1 ?_
      rw [hk1]
      exact Eq.symm (by simpa using hk2)
    have hall := List.all_eq_true.1 hmem2.2 m hm
    simp only [Bool.not_eq_true', beq_eq_false_iff_ne, ne_eq] at hall
    exact hall (by rw [← hseq, ht1])

theorem bsMerged_rowIds_nodup (ms : List BsMapRow) (subs : List SubRow)
    (hkeys : ms.Pairwise (fun a b => bsToken a ≠ bsToken b)) :
    ((bsMerged ms (tagRows subs)).filterMap (·.rowId)).Nodup := by
  have hEq : (bsMerged ms (tagRows subs)).filterMap (·.rowId) =
      (bsPairs ms (tagRows subs)).filterMap (fun p => p.2.map (·.rowId)) := by
    simp only [bsMerged]
    rw [List.filterMap_map]
    rfl
  rw [hEq]
  exact bsPairs_rowIds_nodup ms subs hkeys

theorem mem_st_gm {ss : List TaggedRow} {m : StMapRow} {k : Nat}
    (h : k ∈ (if (ss.filter (fun s => m.cardId.isSome && (s.sub.card_token == m.cardId))).isEmpty
        then [((some m : Option StMapRow), (none : Option TaggedRow))]
        else (ss.filter (fun s => m.cardId.isSome && (s.sub.card_token == m.cardId))).map
          (fun s => (some m, some s))).filterMap (fun p => p.2.map (·.rowId))) :
    ∃ s ∈ ss, m.cardId.isSome = true ∧ s.sub.card_token = m.cardId ∧ s.rowId = k := by
  split at h
  · simp at h
  · rw [List.filterMap_map] at h
    obtain ⟨s, hs, hk⟩ := List.mem_filterMap.1 h
    have hmem := List.mem_filter.1 hs
    have hcond := hmem.2
    simp only [Bool.and_eq_true, beq_iff_eq] at hcond
    exact ⟨s, hmem.1, hcond.1, hcond.2, by simpa using hk⟩

theorem st_gm_nodup {subs : List SubRow} (m : StMapRow) :
    ((if ((tagRows subs).filter
          (fun s => m.cardId.isSome && (s.sub.card_token == m.cardId))).isEmpty
        then [((some m : Option StMapRow), (none : Option TaggedRow))]
        else ((tagRows subs).filter
          (fun s => m.cardId.isSome && (s.sub.card_token == m.cardId))).map
          (fun s => (some m, some s))).filterMap (fun p => p.2.map (·.rowId))).Nodup := by
  split
  · simp
  · rw [List.filterMap_map]
    have heq : (((tagRows subs).filter
        (fun s => m.cardId.isSome && (s.sub.card_token == m.cardId))).filterMap
          ((fun p : Option StMapRow × Option TaggedRow => p.2.map (·.rowId)) ∘
            (fun s => (some m, some s)))) =
        ((tagRows subs).filter
          (fun s => m.cardId.isSome && (s.sub.card_token == m.cardId))).map (·.rowId) :=
      congrFun (List.filterMap_eq_map (fun s : TaggedRow => s.rowId)) _
    rw [heq]
    exact List.Nodup.sublist
      ((List.filter_sublist _).map _) (tagRows_rowId_nodup subs)

theorem stPairs_rowIds_nodup (ms : List StMapRow) (subs : List SubRow)
    (hkeys : ms.Pairwise (fun a b => ¬(a.cardId.isSome = true ∧ a.cardId = b.cardId))) :
    ((stPairs ms (tagRows subs)).filterMap (fun p => p.2.map (·.rowId))).Nodup := by
  rw [stPairs, List.filterMap_append, filterMap_flatMap, List.nodup_append]
  refine ⟨?_, ?_, ?_⟩
  · rw [List.nodup_flatMap]
    constructor
    · intro m _
      exact st_gm_nodup m
    · refine hkeys.imp ?_
      intro a b hab k hka hkb
      obtain ⟨s1, hs1, ha1, ht1, hk1⟩ := mem_st_gm hka
      obtain ⟨s2, hs2, _, ht2, hk2⟩ := mem_st_gm hkb
      have hseq : s1 = s2 :=
        tagRows_rowId_inj subs s1 hs1 s2 hs2 (by rw [hk1, hk2])
      exact hab ⟨ha1, by rw [← ht1, hseq, ht2]⟩
  · have heq : (((tagRows subs).filter
        (fun s => ms.all
          (fun m => !(m.cardId.isSome && (s.sub.card_token == m.cardId))))).map
          (fun s => ((none : Option StMapRow), some s))).filterMap
          (fun p => p.2.map (·.rowId)) =
        ((tagRows subs).filter
          (fun s => ms.all
            (fun m => !(m.cardId.isSome && (s.sub.card_token == m.cardId))))).map
          (·.rowId) := by
      rw [List.filterMap_map]
      exact congrFun (List.filterMap_eq_map (fun s : TaggedRow => s.rowId)) _
    rw [heq]
    exact List.Nodup.sublist
      ((List.filter_sublist _).map _) (tagRows_rowId_nodup subs)
  · intro k hkA hkB
    obtain ⟨m, hm, hgm⟩ := List.mem_flatMap.1 hkA
    obtain ⟨s1, hs1, ha1, ht1, hk1⟩ := mem_st_gm hgm
    rw [List.filterMap_map] at hkB
    obtain ⟨s2, hs2, hk2⟩ := List.mem_filterMap.1 hkB
    have hmem2 := List.mem_filter.1 hs2
    have hseq : s1 = s2 := by
      refine tagRows_rowId_inj subs s1 hs1 s2 hmem2.1 ?_
      rw [hk1]
      exact Eq.symm (by simpa using hk2)
    have hall := List.all_eq_true.1 hmem2.2 m hm
    rw [← hseq] at hall
    simp only [Bool.not_eq_true', Bool.and_eq_false_iff] at hall
    rcases hall with hall | hall
    · rw [ha1] at hall
      cases hall
    · rw [beq_eq_false_iff_ne] at hall
      exact hall ht1

theorem stMerged_rowIds_nodup (ms : List StMapRow) (subs : List SubRow)
    (hkeys : ms.Pairwise (fun a b => ¬(a.cardId.isSome = true ∧ a.cardId = b.cardId))) :
    ((stMerged ms (tagRows subs)).filterMap (·.rowId)).Nodup := by
  have hEq : (stMerged ms (tagRows subs)).filterMap (·.rowId) =
      (stFiltered ms (tagRows subs)).filterMap (fun p => p.2.map (·.rowId)) := by
    simp only [stMerged]
    rw [List.filterMap_map]
    rfl
  rw [hEq]
  refine List.Nodup.sublist ?_ (stPairs_rowIds_nodup ms subs hkeys)
  exact (List.filter_sublist _).filterMap _

/-- C4 counterexample: when two mapping rows share the single subscriber row's
synthetic token, the subscriber is joined to both and the two copies survive to
the final success set carrying the same row identity — duplicate tokens are
warnings, not failures, so nothing removes either copy. -/
theorem c4_rowid_duplicated_under_fanout :
    (runSuccess fanoutIn genX).map (·.rowId) = [some 0, some 0] := by decide

/-- C4 (amended): every row identity in the final success set was assigned at
ingestion to a row of the original subscriber table; and provided no two
mapping rows share a join-key value, each row identity appears at most once in
the success set (with shared mapping join keys a subscriber row is joined to
several mapping rows and its identity can recur). -/
theorem c4_success_rowids_from_ingestion (i : RunInput) (gen : Nat → String)
    (hkeys : if i.isBluesnap = true then
        i.bsMaps.Pairwise (fun a b => bsToken a ≠ bsToken b)
      else i.stMaps.Pairwise (fun a b => ¬(a.cardId.isSome = true ∧ a.cardId = b.cardId))) :
    ((runSuccess i gen).filterMap (·.rowId)).Nodup ∧
    ∀ r ∈ runSuccess i gen, ∀ k, r.rowId = some k → k < i.subs.length := by
  constructor
  · have hmain : ((runMerged i).filterMap (·.rowId)).Nodup := by
      rw [runMerged]
      split
      · rename_i hb
        rw [if_pos hb] at hkeys
        exact bsMerged_rowIds_nodup i.bsMaps i.subs hkeys
      · rename_i hb
        rw [if_neg hb] at hkeys
        exact stMerged_rowIds_nodup i.stMaps i.subs hkeys
    have h2 : ((runSuccess i gen).filterMap (·.rowId)).Sublist
        ((runWsFinal i gen).filterMap (·.rowId)) := by
      rw [runSuccess, runWsRemoved]
      exact ((List.filter_sublist _).filterMap _).trans ((List.filter_sublist _).filterMap _)
    rw [wsFinal_filterMap_rowId, wsAnon_filterMap_rowId] at h2
    exact List.Nodup.sublist (h2.trans (wsEmail_rowIds_sublist i)) hmain
  · intro r hr k hk
    rw [runSuccess] at hr
    have h1 := (List.mem_filter.1 hr).1
    rw [runWsRemoved] at h1
    obtain ⟨r0, h0, hId⟩ := wsFinal_from_merged i gen r (List.mem_filter.1 h1).1
    exact merged_rowId_lt i r0 h0 k (by rw [hId, hk])

/-- C4 witness: the theorem applied to the clean Bluesnap run, whose mapping
join keys are pairwise distinct. -/
theorem c4_success_rowids_from_ingestion_witness :
    ((runSuccess okBsIn genX).filterMap (·.rowId)).Nodup ∧
    okBsRow ∈ runSuccess okBsIn genX ∧ (0 : Nat) < okBsIn.subs.length := by
  have h := c4_success_rowids_from_ingestion okBsIn genX (by decide)
  have hmem : okBsRow ∈ runSuccess okBsIn genX := by decide
  exact ⟨h.1, hmem, h.2 okBsRow hmem 0 rfl⟩

end Migration


